import Mathlib

/-
Verification of the staged CRUD-submission evaluator (src/eval.py).

The evaluator is shallowly embedded: every outcome of the Python runtime
that the pipeline observes (filesystem existence tests, the result of
dynamically importing submission code, the behaviour of the candidate
object during the functional and injection stages, the style-linter
outcome) is a field of an explicit environment record, and the pipeline
itself (`evaluate_project`) is a pure function of that record, written to
mirror the control flow of src/eval.py line by line.  Values returned by
Python code that may raise are modelled as `Except String α`, where the
error string stands for the text of the raised exception.  An exception
that src/eval.py does not catch is modelled by `evaluate_project` itself
returning `Except.error`; a normal return is `Except.ok` of a `Report`.
-/

/-- A JSON scalar as the manifest may hold it: either a string or some
non-string value (carried as its printed form).  Needed because
`setattr(db_mod, name, ...)` in src/eval.py line 144 raises exactly when
the configured name is not a string. -/
inductive PyVal where
  | str (s : String)
  | nonstr (r : String)
deriving DecidableEq

/-- The manifest (README.json) as src/eval.py reads it, lines 62-65:
each field is the result of `meta.get(...)`, so every field is optional.
`sample_keys` is the ordered key list of `sample_data["create"]`; its
values are only ever passed to the opaque candidate, so they do not
appear in the model. -/
structure Meta where
  crud_module : Option String
  crud_class : Option String
  db_adapter : Option String
  db_connect_fn : Option PyVal
  tables : Option (List (String × String))
  sample_keys : List String
deriving DecidableEq

/-- Python truthiness test `not x` applied to an optional string:
true for `None` and for the empty string (src/eval.py line 67). -/
def py_falsy : Option String → Bool
  | none => true
  | some s => s.isEmpty

/-- The mutable scoring accumulator of src/eval.py lines 34-46. -/
structure Score where
  total : Nat
  earned : Nat
  details : List String
deriving DecidableEq

/-- The empty accumulator created at the start of a run (line 54). -/
def Score.empty : Score := ⟨0, 0, []⟩

/-- src/eval.py lines 40-46: `total` always grows by `points`; `earned`
grows only when the condition holds; exactly one detail line is
appended, prefixed with a check or cross mark. -/
def Score.add (s : Score) (points : Nat) (condition : Bool)
    (success_msg fail_msg : String) : Score :=
  { total := s.total + points
    earned := if condition then s.earned + points else s.earned
    details := s.details ++
      [if condition then ("✔ " ++ success_msg) else ("❌ " ++ fail_msg)] }

/-- A bare `score.details.append(...)` as done by the exception handlers
in src/eval.py lines 103, 148 and 186: one extra line, no points. -/
def Score.appendDetail (s : Score) (msg : String) : Score :=
  { s with details := s.details ++ [msg] }

/-- The terminal artifact of a run: either the early `return {"error": e}`
of lines 59 and 68, or the dict built by `finalize` (lines 244-248). -/
inductive Report where
  | error (msg : String)
  | report (score : Nat) (max_score : Nat) (details : List String)
deriving DecidableEq

/-- src/eval.py lines 244-248.  `round(earned, 2)` is the identity here
because points are natural numbers. -/
def finalize (score : Score) : Report :=
  Report.report score.earned score.total score.details

/-- Equality of modelled Python outcomes is decidable, so that concrete
runs of the pipeline can be settled by evaluation. -/
def Except.decEq {ε α : Type} [DecidableEq ε] [DecidableEq α] :
    (a b : Except ε α) → Decidable (a = b)
  | Except.ok a, Except.ok b =>
    if h : a = b then Decidable.isTrue (by rw [h])
    else Decidable.isFalse (by simp [h])
  | Except.ok _, Except.error _ => Decidable.isFalse (by simp)
  | Except.error _, Except.ok _ => Decidable.isFalse (by simp)
  | Except.error e, Except.error f =>
    if h : e = f then Decidable.isTrue (by rw [h])
    else Decidable.isFalse (by simp [h])

instance {ε α : Type} [DecidableEq ε] [DecidableEq α] :
    DecidableEq (Except ε α) := Except.decEq

/-- Observable behaviour of the candidate object during the functional
stage (src/eval.py lines 177-180): for each of the four method calls,
either the text of a raised exception or the truthiness of the returned
value.  The call sequence itself (and the fact that a call is only
reached when everything before it succeeded) lives in
`functional_test`, not here. -/
structure CrudRun where
  create_res : Except String Bool
  read_res : Except String Bool
  update_res : Except String Bool
  delete_res : Except String Bool
deriving DecidableEq

/-- Everything the pipeline observes from the outside world in one run. -/
structure Env where
  /-- Outcome of `load_metadata` (lines 22-28): the parsed manifest, or
  the text of the exception it raised (README missing or JSON malformed). -/
  meta_load : Except String Meta
  /-- `os.path.exists(crud_path)` (lines 78, 90). -/
  crud_exists : Bool
  /-- `os.path.exists(db_path)` (line 85). -/
  db_exists : Bool
  /-- Outcome of importing, looking up and instantiating the CRUD class
  (lines 97-99): ok, or the text of the exception raised. -/
  import_crud : Except String Unit
  /-- The attribute names of the instantiated CRUD object, for the
  `hasattr` probes of lines 120-129. -/
  crud_methods : List String
  /-- Outcome of `dynamic_import(db_path, "db_module")` (line 136).
  Note that in src/eval.py this call is NOT inside a try block. -/
  import_db : Except String Unit
  /-- The attribute names defined by the loaded persistence-adapter
  module.  src/eval.py never consults them: `setattr` (line 144)
  succeeds whether or not the named attribute already exists. -/
  db_mod_attrs : List String
  /-- Candidate behaviour in the functional stage. -/
  crud_run : CrudRun
  /-- Candidate behaviour in the injection stage (line 204): the text of
  a raised exception, or, on completion, whether the probe table is
  still present in the catalog the harness queries (lines 206-210). -/
  inj_create : Except String Bool
  /-- Style-linter outcome (lines 226-229): `none` models
  `FileNotFoundError` (pycodestyle not installed), `some b` models a
  completed run with `b = (returncode == 0)`. -/
  pycodestyle_run : Option Bool
deriving DecidableEq

/-- Check that a list of column names has no duplicate. -/
def dupFree : List String → Bool
  | [] => true
  | c :: cs => (!cs.contains c) && dupFree cs

/-- Modelled sqlite semantics of the CREATE TABLE statement that the
harness builds in src/eval.py lines 169-170, with column list
`id INTEGER PRIMARY KEY` followed by one TEXT column per sample key:
an empty sample leaves a dangling comma (a syntax error), and a sample
key equal to `id` repeats the primary-key column, which sqlite rejects
with a duplicate-column-name error.  Column names are taken to be plain
SQL identifiers, as in the manifest format of the spec. -/
def sqlite_create_table (sample_keys : List String) : Except String Unit :=
  if sample_keys.isEmpty then
    Except.error ("sqlite3.OperationalError: incomplete input")
  else if dupFree ("id" :: sample_keys) then
    Except.ok ()
  else
    Except.error ("sqlite3.OperationalError: duplicate column name")

/-- src/eval.py line 168: `list(meta.get("tables").values())[0]`.
A missing `tables` key gives `None.values()` (AttributeError); an empty
mapping gives an IndexError; otherwise the first value in insertion
order. -/
def table_name_lookup (tables : Option (List (String × String))) :
    Except String String :=
  match tables with
  | none => Except.error ("AttributeError: NoneType object has no attribute values")
  | some [] => Except.error ("IndexError: list index out of range")
  | some ((_, t) :: _) => Except.ok t

/-- Modelled `traceback.format_exc()` (line 186): the full traceback
text of the exception, here represented as a fixed header plus the
exception text. -/
def traceback_format_exc (e : String) : String :=
  "Traceback (most recent call last): " ++ e

/-- The candidate-call segment of the functional stage, src/eval.py
lines 177-182: `create(sample_data)` with its return value discarded,
then `read(sample_data["id"])` — the subscript raises KeyError when the
sample has no id key, before `read` is ever invoked — then `update` and
`delete`; on completion the stage passes iff all three of
read/update/delete returned truthy values. -/
def crud_sequence (run : CrudRun) (has_id : Bool) : Except String Bool :=
  match run.create_res with
  | Except.error e => Except.error e
  | Except.ok _ =>
    if !has_id then Except.error ("KeyError: id")
    else
      match run.read_res with
      | Except.error e => Except.error e
      | Except.ok r =>
        match run.update_res with
        | Except.error e => Except.error e
        | Except.ok u =>
          match run.delete_res with
          | Except.error e => Except.error e
          | Except.ok d => Except.ok (r && u && d)

/-- The whole body of the functional stage try block, src/eval.py
lines 163-182: table-name lookup, harness CREATE TABLE, then the
candidate call sequence.  The first exception wins, exactly as in the
source. -/
def functional_test (m : Meta) (run : CrudRun) : Except String Bool :=
  match table_name_lookup m.tables with
  | Except.error e => Except.error e
  | Except.ok _ =>
    match sqlite_create_table m.sample_keys with
    | Except.error e => Except.error e
    | Except.ok _ => crud_sequence run (m.sample_keys.contains "id")

/-- The boolean `passed` that reaches `score.add` in line 188: the
functional stage passed iff its try block completed and returned true. -/
def func_flag (m : Meta) (run : CrudRun) : Bool :=
  match functional_test m run with
  | Except.ok p => p
  | Except.error _ => false

/-- Detail lines contributed by the functional stage: the diagnostic
line appended by the handler of line 184-186 when the try block raised,
then always the scored line of lines 188-193. -/
def func_detail_block (m : Meta) (run : CrudRun) : List String :=
  match functional_test m run with
  | Except.ok p =>
    [if p then ("✔ CRUD operations successfully executed")
     else ("❌ CRUD functional test failed")]
  | Except.error e =>
    [("❌ CRUD runtime error: " ++ traceback_format_exc e),
     ("❌ CRUD functional test failed")]

/-- The `still_exists` boolean of the injection stage, src/eval.py
lines 198-213: false when the stage raised before the catalog query
confirmed the table (including the case where `table_name` was never
bound because the functional stage failed at the table lookup, making
line 201 raise UnboundLocalError); otherwise the catalog answer. -/
def injection_test (table_name : Except String String)
    (inj : Except String Bool) : Bool :=
  match table_name with
  | Except.error _ => false
  | Except.ok _ =>
    match inj with
    | Except.error _ => false
    | Except.ok present => present

/-- The `is_clean` boolean of the style stage, src/eval.py lines
225-229: a missing pycodestyle executable counts as clean; otherwise
clean iff the linter exited with status zero. -/
def style_check (r : Option Bool) : Bool :=
  match r with
  | none => true
  | some b => b

/-- The evaluator entry point, transliterated from src/eval.py lines
52-238.  `Except.ok` is a normal Python return (a `Report` value);
`Except.error` is an exception escaping `evaluate_project` uncaught:
this happens at line 71 when the manifest omits `db_adapter`
(`os.path.join(project_dir, None)` raises TypeError) and at line 136
when loading the persistence-adapter module raises, because that call
is outside every try block. -/
def evaluate_project (env : Env) : Except String Report :=
  match env.meta_load with
  | Except.error e => Except.ok (Report.error e)
  | Except.ok meta =>
    if py_falsy meta.crud_module || py_falsy meta.crud_class then
      Except.ok (Report.error ("README.json must contain CRUD module + class name."))
    else
      match meta.db_adapter with
      | none =>
        Except.error ("TypeError: join() argument must be str or bytes, not NoneType")
      | some _ =>
        let s2 := (Score.empty.add 10 env.crud_exists
            ("CRUD module found") ("CRUD module missing")).add 10 env.db_exists
            ("DB adapter file found") ("DB adapter file missing")
        if !env.crud_exists then Except.ok (finalize s2)
        else
          let imported : Bool :=
            match env.import_crud with
            | Except.ok _ => true
            | Except.error _ => false
          let s3 :=
            match env.import_crud with
            | Except.ok _ => s2
            | Except.error e =>
              s2.appendDetail ("❌ Could not import CRUD class: " ++ e)
          let s4 := s3.add 20 imported
            ("CRUD class imported successfully") ("Failed to load CRUD class")
          if !imported then Except.ok (finalize s4)
          else
            let s5 := (["create", "read", "update", "delete"]).foldl
              (fun s m => s.add 5 (env.crud_methods.contains m)
                ("Method " ++ m ++ "() found") ("Method " ++ m ++ "() missing")) s4
            if !((["create", "read", "update", "delete"]).all
                (fun m => env.crud_methods.contains m)) then
              Except.ok (finalize s5)
            else
              match env.import_db with
              | Except.error e => Except.error e
              | Except.ok _ =>
                let connFn := meta.db_connect_fn.getD (PyVal.str "get_connection")
                let patched : Bool :=
                  match connFn with
                  | PyVal.str _ => true
                  | PyVal.nonstr _ => false
                let s6 :=
                  match connFn with
                  | PyVal.str _ => s5
                  | PyVal.nonstr r =>
                    s5.appendDetail
                      ("❌ Cannot patch DB connection: TypeError: attribute name must be string, not " ++ r)
                let s7 := s6.add 10 patched
                  ("Database connection successfully sandboxed")
                  ("Unable to sandbox database calls")
                if !patched then Except.ok (finalize s7)
                else
                  let funcRes := functional_test meta env.crud_run
                  let s8 :=
                    match funcRes with
                    | Except.ok _ => s7
                    | Except.error e =>
                      s7.appendDetail ("❌ CRUD runtime error: " ++ traceback_format_exc e)
                  let passed : Bool :=
                    match funcRes with
                    | Except.ok p => p
                    | Except.error _ => false
                  let s9 := s8.add 30 passed
                    ("CRUD operations successfully executed")
                    ("CRUD functional test failed")
                  let still := injection_test (table_name_lookup meta.tables) env.inj_create
                  let s10 := s9.add 20 still
                    ("SQL injection protection appears safe")
                    ("SQL injection vulnerability detected")
                  let isClean := style_check env.pycodestyle_run
                  let s11 := s10.add 10 isClean
                    ("Code is PEP8 clean") ("Code style violations found")
                  Except.ok (finalize s11)

/-- The import-stage gate boolean (src/eval.py line 112). -/
def imported_ok (env : Env) : Bool :=
  match env.import_crud with
  | Except.ok _ => true
  | Except.error _ => false

/-- The method-presence gate boolean (src/eval.py line 129). -/
def methods_ok (env : Env) : Bool :=
  (["create", "read", "update", "delete"]).all
    (fun m => env.crud_methods.contains m)

/-- Whether the sandbox `setattr` of line 144 succeeds: true iff the
effective connection-factory name (the manifest value, defaulting to
the string get_connection) is a string. -/
def conn_fn_patchable (m : Meta) : Bool :=
  match m.db_connect_fn.getD (PyVal.str "get_connection") with
  | PyVal.str _ => true
  | PyVal.nonstr _ => false

/-- The detail lines of checks 1-4 in a run in which all gates up to the
method checks passed. -/
def prefix_details (env : Env) : List String :=
  [("✔ CRUD module found"),
   if env.db_exists then ("✔ DB adapter file found") else ("❌ DB adapter file missing"),
   ("✔ CRUD class imported successfully"),
   ("✔ Method create() found"), ("✔ Method read() found"),
   ("✔ Method update() found"), ("✔ Method delete() found")]

/-- The sandbox gate seen from the environment: the manifest loaded and
its connection-factory name is patchable. -/
def patch_gate (env : Env) : Bool :=
  match env.meta_load with
  | Except.ok m => conn_fn_patchable m
  | Except.error _ => false

/-- All gate conditions of the pipeline: exactly when they all hold
does the run attempt every check (so max_score reaches 130). -/
def ran_all_stages (env : Env) : Bool :=
  env.crud_exists && imported_ok env && methods_ok env && patch_gate env

/-- Unpacking the method-presence gate into the four hasattr facts. -/
theorem methods_ok_elim (env : Env) (h : methods_ok env = true) :
    ("create") ∈ env.crud_methods ∧ ("read") ∈ env.crud_methods ∧
    ("update") ∈ env.crud_methods ∧ ("delete") ∈ env.crud_methods := by
  simpa [methods_ok, List.all_cons, Bool.and_eq_true] using h

/-- Unpacking the sandbox gate: a patchable connection-factory name is
a string. -/
theorem conn_fn_patchable_elim (m : Meta) (h : conn_fn_patchable m = true) :
    ∃ s, m.db_connect_fn.getD (PyVal.str "get_connection") = PyVal.str s := by
  unfold conn_fn_patchable at h
  cases hv : m.db_connect_fn.getD (PyVal.str "get_connection") with
  | str s => exact ⟨s, rfl⟩
  | nonstr r => rw [hv] at h; cases h

/-- Stage lemma: a failure to load or parse the manifest is returned as
an error report (src/eval.py lines 56-59). -/
theorem eval_meta_error (env : Env) (e : String)
    (h : env.meta_load = Except.error e) :
    evaluate_project env = Except.ok (Report.error e) := by
  simp only [evaluate_project, h]

/-- Stage lemma: a manifest that does not name both a CRUD module and a
class yields the fixed configuration-error report (lines 67-68). -/
theorem eval_manifest_incomplete (env : Env) (m : Meta)
    (h1 : env.meta_load = Except.ok m)
    (h2 : (py_falsy m.crud_module || py_falsy m.crud_class) = true) :
    evaluate_project env =
      Except.ok (Report.error ("README.json must contain CRUD module + class name.")) := by
  simp only [evaluate_project, h1, h2, if_true]

/-- Stage lemma: a manifest without a `db_adapter` entry makes line 71
raise an uncaught TypeError, so `evaluate_project` itself raises. -/
theorem eval_db_adapter_none (env : Env) (m : Meta)
    (h1 : env.meta_load = Except.ok m)
    (h2 : py_falsy m.crud_module = false)
    (h3 : py_falsy m.crud_class = false)
    (h4 : m.db_adapter = none) :
    evaluate_project env =
      Except.error ("TypeError: join() argument must be str or bytes, not NoneType") := by
  simp only [evaluate_project, h1, h2, h3, h4, Bool.or_self, Bool.false_eq_true, if_false]

/-- Stage lemma: with the CRUD file missing the run stops after the two
file checks (lines 76-91): max_score 20, two detail lines, and the
earned score is 10 or 0 according to the adapter file. -/
theorem eval_crud_missing (env : Env) (m : Meta) (da : String)
    (h1 : env.meta_load = Except.ok m)
    (h2 : py_falsy m.crud_module = false)
    (h3 : py_falsy m.crud_class = false)
    (h4 : m.db_adapter = some da)
    (h5 : env.crud_exists = false) :
    evaluate_project env = Except.ok (Report.report
      (if env.db_exists then 10 else 0) 20
      [("❌ CRUD module missing"),
       if env.db_exists then ("✔ DB adapter file found")
       else ("❌ DB adapter file missing")]) := by
  cases hdb : env.db_exists <;>
    simp [evaluate_project, h1, h2, h3, h4, h5, hdb, Score.add, Score.empty, finalize]

/-- Stage lemma: with the CRUD file present but its import or
instantiation raising, the run stops after the import check (lines
96-113): max_score 40, four detail lines of which the import failure
contributes two. -/
theorem eval_import_fail (env : Env) (m : Meta) (da e : String)
    (h1 : env.meta_load = Except.ok m)
    (h2 : py_falsy m.crud_module = false)
    (h3 : py_falsy m.crud_class = false)
    (h4 : m.db_adapter = some da)
    (h5 : env.crud_exists = true)
    (h6 : env.import_crud = Except.error e) :
    evaluate_project env = Except.ok (Report.report
      (10 + (if env.db_exists then 10 else 0)) 40
      [("✔ CRUD module found"),
       if env.db_exists then ("✔ DB adapter file found")
       else ("❌ DB adapter file missing"),
       ("❌ Could not import CRUD class: " ++ e),
       ("❌ Failed to load CRUD class")]) := by
  cases hdb : env.db_exists <;>
    simp [evaluate_project, h1, h2, h3, h4, h5, h6, hdb, Score.add, Score.empty,
      Score.appendDetail, finalize]

/-- Stage lemma: with the class instantiated but at least one required
method missing, the run stops right after the four method checks (lines
118-130): max_score 60, seven detail lines, five points per method
present. -/
theorem eval_methods_missing (env : Env) (m : Meta) (da : String)
    (h1 : env.meta_load = Except.ok m)
    (h2 : py_falsy m.crud_module = false)
    (h3 : py_falsy m.crud_class = false)
    (h4 : m.db_adapter = some da)
    (h5 : env.crud_exists = true)
    (h6 : env.import_crud = Except.ok ())
    (h7 : methods_ok env = false) :
    evaluate_project env = Except.ok (Report.report
      (30 + (if env.db_exists then 10 else 0)
         + (if env.crud_methods.contains ("create") then 5 else 0)
         + (if env.crud_methods.contains ("read") then 5 else 0)
         + (if env.crud_methods.contains ("update") then 5 else 0)
         + (if env.crud_methods.contains ("delete") then 5 else 0))
      60
      [("✔ CRUD module found"),
       if env.db_exists then ("✔ DB adapter file found")
       else ("❌ DB adapter file missing"),
       ("✔ CRUD class imported successfully"),
       if env.crud_methods.contains ("create") then ("✔ Method create() found")
       else ("❌ Method create() missing"),
       if env.crud_methods.contains ("read") then ("✔ Method read() found")
       else ("❌ Method read() missing"),
       if env.crud_methods.contains ("update") then ("✔ Method update() found")
       else ("❌ Method update() missing"),
       if env.crud_methods.contains ("delete") then ("✔ Method delete() found")
       else ("❌ Method delete() missing")]) := by
  cases hdb : env.db_exists <;>
  by_cases hc1 : ("create") ∈ env.crud_methods <;>
  by_cases hc2 : ("read") ∈ env.crud_methods <;>
  by_cases hc3 : ("update") ∈ env.crud_methods <;>
  by_cases hc4 : ("delete") ∈ env.crud_methods <;>
    first
    | (exfalso; simp [methods_ok, hc1, hc2, hc3, hc4] at h7; done)
    | simp [evaluate_project, h1, h2, h3, h4, h5, h6, hdb, hc1, hc2, hc3, hc4,
        Score.add, Score.empty, finalize]

/-- Stage lemma: once all gates up to the method checks pass, the
dynamic import of the persistence adapter at line 136 sits outside
every try block, so its exception escapes `evaluate_project`. -/
theorem eval_import_db_raise (env : Env) (m : Meta) (da e : String)
    (h1 : env.meta_load = Except.ok m)
    (h2 : py_falsy m.crud_module = false)
    (h3 : py_falsy m.crud_class = false)
    (h4 : m.db_adapter = some da)
    (h5 : env.crud_exists = true)
    (h6 : env.import_crud = Except.ok ())
    (h7 : methods_ok env = true)
    (h8 : env.import_db = Except.error e) :
    evaluate_project env = Except.error e := by
  obtain ⟨hc1, hc2, hc3, hc4⟩ := methods_ok_elim env h7
  simp [evaluate_project, h1, h2, h3, h4, h5, h6, h8, hc1, hc2, hc3, hc4]

/-- Stage lemma: when the configured connection-factory name is not a
string, `setattr` raises, the sandbox check fails and the run stops at
max_score 70 with a diagnostic line plus the scored line (lines
143-158). -/
theorem eval_patch_fail (env : Env) (m : Meta) (da r : String)
    (h1 : env.meta_load = Except.ok m)
    (h2 : py_falsy m.crud_module = false)
    (h3 : py_falsy m.crud_class = false)
    (h4 : m.db_adapter = some da)
    (h5 : env.crud_exists = true)
    (h6 : env.import_crud = Except.ok ())
    (h7 : methods_ok env = true)
    (h8 : env.import_db = Except.ok ())
    (h9 : m.db_connect_fn = some (PyVal.nonstr r)) :
    evaluate_project env = Except.ok (Report.report
      (50 + (if env.db_exists then 10 else 0)) 70
      (prefix_details env ++
       [("❌ Cannot patch DB connection: TypeError: attribute name must be string, not " ++ r),
        ("❌ Unable to sandbox database calls")])) := by
  obtain ⟨hc1, hc2, hc3, hc4⟩ := methods_ok_elim env h7
  cases hdb : env.db_exists <;>
    simp [evaluate_project, h1, h2, h3, h4, h5, h6, h8, h9, hdb, hc1, hc2, hc3, hc4,
      prefix_details, Score.add, Score.empty, Score.appendDetail, finalize]

/-- Stage lemma: with every gate passing, all eight checks are
attempted, max_score is 130, and the detail list is the seven prefix
lines, the functional block, the injection line and the style line. -/
theorem eval_full_run (env : Env) (m : Meta) (da : String)
    (h1 : env.meta_load = Except.ok m)
    (h2 : py_falsy m.crud_module = false)
    (h3 : py_falsy m.crud_class = false)
    (h4 : m.db_adapter = some da)
    (h5 : env.crud_exists = true)
    (h6 : env.import_crud = Except.ok ())
    (h7 : methods_ok env = true)
    (h8 : env.import_db = Except.ok ())
    (h9 : conn_fn_patchable m = true) :
    evaluate_project env = Except.ok (Report.report
      (60 + (if env.db_exists then 10 else 0)
         + (if func_flag m env.crud_run then 30 else 0)
         + (if injection_test (table_name_lookup m.tables) env.inj_create then 20 else 0)
         + (if style_check env.pycodestyle_run then 10 else 0))
      130
      (prefix_details env ++ [("✔ Database connection successfully sandboxed")] ++
       func_detail_block m env.crud_run ++
       [if injection_test (table_name_lookup m.tables) env.inj_create
          then ("✔ SQL injection protection appears safe")
          else ("❌ SQL injection vulnerability detected"),
        if style_check env.pycodestyle_run
          then ("✔ Code is PEP8 clean")
          else ("❌ Code style violations found")])) := by
  obtain ⟨hc1, hc2, hc3, hc4⟩ := methods_ok_elim env h7
  obtain ⟨nm, hnm⟩ := conn_fn_patchable_elim m h9
  cases hdb : env.db_exists <;>
  rcases hf : functional_test m env.crud_run with e | p <;>
  try cases p
  all_goals
    cases hinj : injection_test (table_name_lookup m.tables) env.inj_create <;>
    cases hst : style_check env.pycodestyle_run <;>
      simp [evaluate_project, h1, h2, h3, h4, h5, h6, h8, hnm, hdb, hf, hinj, hst,
        hc1, hc2, hc3, hc4, func_flag, func_detail_block, prefix_details,
        Score.add, Score.empty, Score.appendDetail, finalize]

/-- Unpacking a failed sandbox gate: the configured name is a non-string
manifest value. -/
theorem conn_fn_unpatchable_elim (m : Meta) (h : conn_fn_patchable m = false) :
    ∃ r, m.db_connect_fn = some (PyVal.nonstr r) := by
  unfold conn_fn_patchable at h
  rcases hv : m.db_connect_fn with _ | v
  · rw [hv] at h; simp [Option.getD] at h
  · rcases v with s | r
    · rw [hv] at h; simp [Option.getD] at h
    · exact ⟨r, rfl⟩

/-- The functional stage of src/eval.py can never complete its try
block: a sample containing the key id makes the harness CREATE TABLE of
line 170 repeat the id column (sqlite raises), a sample without that
key makes the subscript in line 178 raise KeyError, and an empty sample
leaves invalid SQL — so some exception always occurs. -/
theorem functional_test_always_raises (m : Meta) (run : CrudRun) :
    ∃ e, functional_test m run = Except.error e := by
  unfold functional_test
  cases htab : table_name_lookup m.tables with
  | error e => exact ⟨e, rfl⟩
  | ok tn =>
    cases hct : sqlite_create_table m.sample_keys with
    | error e => exact ⟨e, rfl⟩
    | ok u =>
      have hid : m.sample_keys.contains ("id") = false := by
        unfold sqlite_create_table at hct
        by_cases he : m.sample_keys.isEmpty
        · simp [he] at hct
        · simp only [he, if_false, Bool.false_eq_true] at hct
          by_cases hd : dupFree (("id") :: m.sample_keys) = true
          · simp only [dupFree] at hd
            rw [Bool.and_eq_true] at hd
            have h1 := hd.1
            simpa using h1
          · simp [hd] at hct
      cases hcr : run.create_res with
      | error e => exact ⟨e, by simp [crud_sequence, hcr]⟩
      | ok cb =>
        have hid2 : ("id") ∉ m.sample_keys := by simpa using hid
        exact ⟨"KeyError: id", by simp [crud_sequence, hcr, hid2]⟩

/-- Consequently the `passed` flag of src/eval.py line 182 is false in
every run: the 30 points of the functional check are unearnable. -/
theorem func_flag_false (m : Meta) (run : CrudRun) : func_flag m run = false := by
  obtain ⟨e, he⟩ := functional_test_always_raises m run
  simp [func_flag, he]

/-- The manifest of the concrete scenario in the spec: crud.py/Crud,
adapter db.py, sample keys id and name, table mapping user to users. -/
def sampleMeta : Meta :=
  { crud_module := some ("crud.py")
    crud_class := some ("Crud")
    db_adapter := some ("db.py")
    db_connect_fn := none
    tables := some [(("user"), ("users"))]
    sample_keys := [("id"), ("name")] }

/-- A candidate whose four methods all complete and return truthy
values. -/
def goodRun : CrudRun :=
  { create_res := Except.ok true
    read_res := Except.ok true
    update_res := Except.ok true
    delete_res := Except.ok true }

/-- A fully well-behaved submission environment: both files present,
clean import, all four methods defined, adapter loads, candidate calls
all succeed, probe table survives, linter clean. -/
def baseEnv : Env :=
  { meta_load := Except.ok sampleMeta
    crud_exists := true
    db_exists := true
    import_crud := Except.ok ()
    crud_methods := [("create"), ("read"), ("update"), ("delete")]
    import_db := Except.ok ()
    db_mod_attrs := [("get_connection")]
    crud_run := goodRun
    inj_create := Except.ok true
    pycodestyle_run := some true }

/-- C1: the claim that `evaluate_project` always ends in a complete
report or a single error value fails on the code.  With a manifest that
parses and names a CRUD module and class but omits `db_adapter`,
line 71 of src/eval.py raises an uncaught TypeError; and in a run whose
gates are all open, an exception raised while loading the
persistence-adapter file at line 136 (outside every try block) also
escapes.  Formally, `evaluate_project` yields `Except.error` (an
escaped exception), not a `Report`, on these runs. -/
theorem C1_uncaught_exception_escapes :
    (evaluate_project { baseEnv with
        meta_load := Except.ok { sampleMeta with db_adapter := none } }
      = Except.error ("TypeError: join() argument must be str or bytes, not NoneType")) ∧
    (evaluate_project { baseEnv with
        db_exists := false
        import_db := Except.error ("FileNotFoundError: db.py not found") }
      = Except.error ("FileNotFoundError: db.py not found")) :=
  ⟨rfl, rfl⟩

/-- C3 counterexample: a valid manifest, CRUD file missing, adapter
file present — the run returns score 10, not the score 0 the claim
asserts regardless of the adapter file. -/
theorem C3_counterexample :
    evaluate_project { baseEnv with crud_exists := false }
      = Except.ok (Report.report 10 20
          [("❌ CRUD module missing"), ("✔ DB adapter file found")]) :=
  rfl

/-- C3 amended: a valid manifest whose CRUD file is missing yields
max_score 20 and exactly two detail entries regardless of the adapter
file, but the score is 10 when the adapter file exists and 0 only when
it too is missing. -/
theorem C3_amended_crud_missing_report (env : Env) (m : Meta) (da : String)
    (h1 : env.meta_load = Except.ok m)
    (h2 : py_falsy m.crud_module = false)
    (h3 : py_falsy m.crud_class = false)
    (h4 : m.db_adapter = some da)
    (h5 : env.crud_exists = false) :
    evaluate_project env = Except.ok (Report.report
      (if env.db_exists then 10 else 0) 20
      [("❌ CRUD module missing"),
       if env.db_exists then ("✔ DB adapter file found")
       else ("❌ DB adapter file missing")]) :=
  eval_crud_missing env m da h1 h2 h3 h4 h5

/-- Witness for C3: both files missing gives the zero-score two-line
report. -/
theorem C3_witness :
    evaluate_project { baseEnv with crud_exists := false, db_exists := false }
      = Except.ok (Report.report 0 20
          [("❌ CRUD module missing"), ("❌ DB adapter file missing")]) := by
  have h := C3_amended_crud_missing_report
      { baseEnv with crud_exists := false, db_exists := false }
      sampleMeta ("db.py") rfl rfl rfl rfl rfl
  simpa using h

/-- C4: when at least one required method is missing, the pipeline
halts right after recording the four method-presence outcomes: the
report has max_score 60 and exactly seven detail lines, the last four
being the method outcomes, and no outcome line of checks 5-8
(sandboxing, functional round-trip, injection probe, style) occurs. -/
theorem C4_method_gate_halts (env : Env) (m : Meta) (da : String)
    (h1 : env.meta_load = Except.ok m)
    (h2 : py_falsy m.crud_module = false)
    (h3 : py_falsy m.crud_class = false)
    (h4 : m.db_adapter = some da)
    (h5 : env.crud_exists = true)
    (h6 : env.import_crud = Except.ok ())
    (h7 : methods_ok env = false) :
    ∃ s d, evaluate_project env = Except.ok (Report.report s 60 d) ∧
      d.length = 7 ∧
      d.drop 3 =
        [if env.crud_methods.contains ("create") then ("✔ Method create() found")
         else ("❌ Method create() missing"),
         if env.crud_methods.contains ("read") then ("✔ Method read() found")
         else ("❌ Method read() missing"),
         if env.crud_methods.contains ("update") then ("✔ Method update() found")
         else ("❌ Method update() missing"),
         if env.crud_methods.contains ("delete") then ("✔ Method delete() found")
         else ("❌ Method delete() missing")] ∧
      (("✔ Database connection successfully sandboxed") ∉ d) ∧
      (("❌ Unable to sandbox database calls") ∉ d) ∧
      (("✔ CRUD operations successfully executed") ∉ d) ∧
      (("❌ CRUD functional test failed") ∉ d) ∧
      (("✔ SQL injection protection appears safe") ∉ d) ∧
      (("❌ SQL injection vulnerability detected") ∉ d) ∧
      (("✔ Code is PEP8 clean") ∉ d) ∧
      (("❌ Code style violations found") ∉ d) := by
  have hrep := eval_methods_missing env m da h1 h2 h3 h4 h5 h6 h7
  refine ⟨_, _, hrep, rfl, rfl, ?_, ?_, ?_, ?_, ?_, ?_, ?_, ?_⟩ <;>
  · cases hdb : env.db_exists <;>
    by_cases hm1 : ("create") ∈ env.crud_methods <;>
    by_cases hm2 : ("read") ∈ env.crud_methods <;>
    by_cases hm3 : ("update") ∈ env.crud_methods <;>
    by_cases hm4 : ("delete") ∈ env.crud_methods <;>
      simp [hdb, hm1, hm2, hm3, hm4]

/-- Witness for C4: a submission lacking delete halts at max_score 60
with seven detail lines and no trace of checks 5-8. -/
theorem C4_witness :
    ∃ s d, evaluate_project
        { baseEnv with crud_methods := [("create"), ("read"), ("update")] }
        = Except.ok (Report.report s 60 d) ∧
      d.length = 7 ∧
      d.drop 3 =
        [("✔ Method create() found"), ("✔ Method read() found"),
         ("✔ Method update() found"), ("❌ Method delete() missing")] ∧
      (("✔ Database connection successfully sandboxed") ∉ d) ∧
      (("❌ Unable to sandbox database calls") ∉ d) ∧
      (("✔ CRUD operations successfully executed") ∉ d) ∧
      (("❌ CRUD functional test failed") ∉ d) ∧
      (("✔ SQL injection protection appears safe") ∉ d) ∧
      (("❌ SQL injection vulnerability detected") ∉ d) ∧
      (("✔ Code is PEP8 clean") ∉ d) ∧
      (("❌ Code style violations found") ∉ d) := by
  have h := C4_method_gate_halts
      { baseEnv with crud_methods := [("create"), ("read"), ("update")] }
      sampleMeta ("db.py") rfl rfl rfl rfl rfl rfl (by rfl)
  simpa using h

/-- C2: every score report satisfies 0 ≤ score ≤ max_score, and
max_score is exactly the sum of the fixed weights of the checks
attempted in that run (written below as literal weight sums), reaching
130 precisely when every stage ran. -/
theorem C2_score_bounds_and_attempted_weights (env : Env) (s t : Nat)
    (d : List String)
    (h : evaluate_project env = Except.ok (Report.report s t d)) :
    0 ≤ s ∧ s ≤ t ∧ (t = 130 ↔ ran_all_stages env = true) ∧
    (env.crud_exists = false → t = 10 + 10) ∧
    (env.crud_exists = true → imported_ok env = false → t = 10 + 10 + 20) ∧
    (env.crud_exists = true → imported_ok env = true → methods_ok env = false →
        t = 10 + 10 + 20 + 5 + 5 + 5 + 5) ∧
    (env.crud_exists = true → imported_ok env = true → methods_ok env = true →
        patch_gate env = false → t = 10 + 10 + 20 + 5 + 5 + 5 + 5 + 10) ∧
    (ran_all_stages env = true →
        t = 10 + 10 + 20 + 5 + 5 + 5 + 5 + 10 + 30 + 20 + 10) := by
  rcases hml : env.meta_load with e | m
  · rw [eval_meta_error env e hml] at h
    exact absurd h (by simp)
  cases h2 : py_falsy m.crud_module with
  | true =>
    rw [eval_manifest_incomplete env m hml (by simp [h2])] at h
    exact absurd h (by simp)
  | false =>
  cases h3 : py_falsy m.crud_class with
  | true =>
    rw [eval_manifest_incomplete env m hml (by simp [h2, h3])] at h
    exact absurd h (by simp)
  | false =>
  rcases hda : m.db_adapter with _ | da
  · rw [eval_db_adapter_none env m hml h2 h3 hda] at h
    exact absurd h (by simp)
  cases hce : env.crud_exists with
  | false =>
    rw [eval_crud_missing env m da hml h2 h3 hda hce] at h
    have hra : ran_all_stages env = false := by
      simp [ran_all_stages, hce]
    simp only [Except.ok.injEq, Report.report.injEq] at h
    obtain ⟨hs, ht, hd⟩ := h
    refine ⟨Nat.zero_le _, ?_, ?_, ?_, ?_, ?_, ?_, ?_⟩
    · split_ifs at hs <;> omega
    · exact ⟨fun h130 => by omega, fun hra2 => by simp [hra] at hra2⟩
    · intro _; omega
    · intro hc _; simp [hce] at hc
    · intro hc _ _; simp [hce] at hc
    · intro hc _ _ _; simp [hce] at hc
    · intro hra2; simp [hra] at hra2
  | true =>
  rcases hic : env.import_crud with e | u
  · rw [eval_import_fail env m da e hml h2 h3 hda hce hic] at h
    have hio : imported_ok env = false := by simp [imported_ok, hic]
    have hra : ran_all_stages env = false := by
      simp [ran_all_stages, imported_ok, hic]
    simp only [Except.ok.injEq, Report.report.injEq] at h
    obtain ⟨hs, ht, hd⟩ := h
    refine ⟨Nat.zero_le _, ?_, ?_, ?_, ?_, ?_, ?_, ?_⟩
    · split_ifs at hs <;> omega
    · exact ⟨fun h130 => by omega, fun hra2 => by simp [hra] at hra2⟩
    · intro hc; simp [hce] at hc
    · intro _ _; omega
    · intro _ hi _; simp [hio] at hi
    · intro _ hi _ _; simp [hio] at hi
    · intro hra2; simp [hra] at hra2
  obtain rfl : u = () := rfl
  have hio : imported_ok env = true := by simp [imported_ok, hic]
  cases hmo : methods_ok env with
  | false =>
    rw [eval_methods_missing env m da hml h2 h3 hda hce hic hmo] at h
    have hra : ran_all_stages env = false := by
      simp [ran_all_stages, hmo]
    simp only [Except.ok.injEq, Report.report.injEq] at h
    obtain ⟨hs, ht, hd⟩ := h
    refine ⟨Nat.zero_le _, ?_, ?_, ?_, ?_, ?_, ?_, ?_⟩
    · split_ifs at hs <;> omega
    · exact ⟨fun h130 => by omega, fun hra2 => by simp [hra] at hra2⟩
    · intro hc; simp [hce] at hc
    · intro _ hi; simp [hio] at hi
    · intro _ _ _; omega
    · intro _ _ hm _; simp [hmo] at hm
    · intro hra2; simp [hra] at hra2
  | true =>
  rcases hidb : env.import_db with e | v
  · rw [eval_import_db_raise env m da e hml h2 h3 hda hce hic hmo hidb] at h
    exact absurd h (by simp)
  obtain rfl : v = () := rfl
  cases hpg : conn_fn_patchable m with
  | false =>
    obtain ⟨r, hr⟩ := conn_fn_unpatchable_elim m hpg
    rw [eval_patch_fail env m da r hml h2 h3 hda hce hic hmo hidb hr] at h
    have hpe : patch_gate env = false := by simp [patch_gate, hml, hpg]
    have hra : ran_all_stages env = false := by
      simp [ran_all_stages, hpe]
    simp only [Except.ok.injEq, Report.report.injEq] at h
    obtain ⟨hs, ht, hd⟩ := h
    refine ⟨Nat.zero_le _, ?_, ?_, ?_, ?_, ?_, ?_, ?_⟩
    · split_ifs at hs <;> omega
    · exact ⟨fun h130 => by omega, fun hra2 => by simp [hra] at hra2⟩
    · intro hc; simp [hce] at hc
    · intro _ hi; simp [hio] at hi
    · intro _ _ hm; simp [hmo] at hm
    · intro _ _ _ _; omega
    · intro hra2; simp [hra] at hra2
  | true =>
    rw [eval_full_run env m da hml h2 h3 hda hce hic hmo hidb hpg] at h
    have hpe : patch_gate env = true := by simp [patch_gate, hml, hpg]
    have hra : ran_all_stages env = true := by
      simp [ran_all_stages, hce, hio, hmo, hpe]
    simp only [Except.ok.injEq, Report.report.injEq] at h
    obtain ⟨hs, ht, hd⟩ := h
    refine ⟨Nat.zero_le _, ?_, ?_, ?_, ?_, ?_, ?_, ?_⟩
    · split_ifs at hs <;> omega
    · exact ⟨fun _ => hra, fun _ => by omega⟩
    · intro hc; simp [hce] at hc
    · intro _ hi; simp [hio] at hi
    · intro _ _ hm; simp [hmo] at hm
    · intro _ _ _ hp; simp [hpe] at hp
    · intro _; omega

/-- Witness for C2: the fully well-behaved run report satisfies all the
weight-sum clauses at a concrete environment. -/
theorem C2_witness :
    0 ≤ 100 ∧ 100 ≤ 130 ∧
      ((130 : Nat) = 130 ↔ ran_all_stages baseEnv = true) := by
  have h := C2_score_bounds_and_attempted_weights baseEnv 100 130
      (prefix_details baseEnv ++ [("✔ Database connection successfully sandboxed")] ++
        func_detail_block sampleMeta baseEnv.crud_run ++
        [("✔ SQL injection protection appears safe"), ("✔ Code is PEP8 clean")])
      (by rfl)
  exact ⟨h.1, h.2.1, h.2.2.1⟩

/-- C5: the functional check passes exactly when the candidate-call
sequence completes with read, update and delete all returning truthy
values — the value returned by create is ignored — and any exception
raised anywhere in the create/read/update/delete sequence is caught:
the stage records a diagnostic line with the full traceback text plus a
failed 30-point outcome, and the injection and style checks still run
afterwards (the report still reaches max_score 130 with their entries
at the end). -/
theorem C5_functional_check (env : Env) (m : Meta) (da : String)
    (h1 : env.meta_load = Except.ok m)
    (h2 : py_falsy m.crud_module = false)
    (h3 : py_falsy m.crud_class = false)
    (h4 : m.db_adapter = some da)
    (h5 : env.crud_exists = true)
    (h6 : env.import_crud = Except.ok ())
    (h7 : methods_ok env = true)
    (h8 : env.import_db = Except.ok ())
    (h9 : conn_fn_patchable m = true) :
    (∀ (cb r u dl : Bool),
        crud_sequence ⟨Except.ok cb, Except.ok r, Except.ok u, Except.ok dl⟩ true
          = Except.ok (r && u && dl)) ∧
    (func_detail_block m env.crud_run = [("✔ CRUD operations successfully executed")]
        ↔ functional_test m env.crud_run = Except.ok true) ∧
    (∀ e, functional_test m env.crud_run = Except.error e →
        func_detail_block m env.crud_run =
          [("❌ CRUD runtime error: " ++ traceback_format_exc e),
           ("❌ CRUD functional test failed")]) ∧
    (∃ s, evaluate_project env = Except.ok (Report.report s 130
        (prefix_details env ++ [("✔ Database connection successfully sandboxed")] ++
         func_detail_block m env.crud_run ++
         [if injection_test (table_name_lookup m.tables) env.inj_create
            then ("✔ SQL injection protection appears safe")
            else ("❌ SQL injection vulnerability detected"),
          if style_check env.pycodestyle_run
            then ("✔ Code is PEP8 clean")
            else ("❌ Code style violations found")]))) := by
  refine ⟨?_, ?_, ?_, ?_⟩
  · intro cb r u dl
    simp [crud_sequence]
  · rcases hf : functional_test m env.crud_run with e | p
    · simp [func_detail_block, hf]
    · cases p <;> simp [func_detail_block, hf]
  · intro e he
    simp [func_detail_block, he]
  · exact ⟨_, eval_full_run env m da h1 h2 h3 h4 h5 h6 h7 h8 h9⟩

/-- Witness for C5: a concrete truthy sequence evaluates to a pass
value, and the fully well-behaved environment yields the full-shape
report. -/
theorem C5_witness :
    (crud_sequence ⟨Except.ok false, Except.ok true, Except.ok true, Except.ok true⟩ true
        = Except.ok true) ∧
    (∃ s, evaluate_project baseEnv = Except.ok (Report.report s 130
        (prefix_details baseEnv ++ [("✔ Database connection successfully sandboxed")] ++
         func_detail_block sampleMeta baseEnv.crud_run ++
         [if injection_test (table_name_lookup sampleMeta.tables) baseEnv.inj_create
            then ("✔ SQL injection protection appears safe")
            else ("❌ SQL injection vulnerability detected"),
          if style_check baseEnv.pycodestyle_run
            then ("✔ Code is PEP8 clean")
            else ("❌ Code style violations found")]))) := by
  have h := C5_functional_check baseEnv sampleMeta ("db.py")
      rfl rfl rfl rfl rfl rfl rfl rfl rfl
  exact ⟨by simpa using h.1 false true true true, h.2.2.2⟩

/-- C6: with the gates open and a table name bound from the manifest,
the injection probe records success exactly when the candidate create
completed and the catalog query confirmed the probe table still
present; a run in which the table was dropped scores failing, and any
exception raised before the confirmation also scores failing. -/
theorem C6_injection_check (env : Env) (m : Meta) (da tn : String)
    (h1 : env.meta_load = Except.ok m)
    (h2 : py_falsy m.crud_module = false)
    (h3 : py_falsy m.crud_class = false)
    (h4 : m.db_adapter = some da)
    (h5 : env.crud_exists = true)
    (h6 : env.import_crud = Except.ok ())
    (h7 : methods_ok env = true)
    (h8 : env.import_db = Except.ok ())
    (h9 : conn_fn_patchable m = true)
    (htab : table_name_lookup m.tables = Except.ok tn) :
    (injection_test (table_name_lookup m.tables) env.inj_create = true
        ↔ env.inj_create = Except.ok true) ∧
    (∃ s, evaluate_project env = Except.ok (Report.report s 130
        (prefix_details env ++ [("✔ Database connection successfully sandboxed")] ++
         func_detail_block m env.crud_run ++
         [if env.inj_create = Except.ok true
            then ("✔ SQL injection protection appears safe")
            else ("❌ SQL injection vulnerability detected"),
          if style_check env.pycodestyle_run
            then ("✔ Code is PEP8 clean")
            else ("❌ Code style violations found")]))) := by
  have h := eval_full_run env m da h1 h2 h3 h4 h5 h6 h7 h8 h9
  refine ⟨?_, ?_⟩
  · rcases hinj : env.inj_create with e | b
    · simp [injection_test, htab, hinj]
    · cases b <;> simp [injection_test, htab, hinj]
  · refine ⟨(60 + (if env.db_exists then 10 else 0)
       + (if func_flag m env.crud_run then 30 else 0)
       + (if injection_test (table_name_lookup m.tables) env.inj_create then 20 else 0)
       + (if style_check env.pycodestyle_run then 10 else 0)), ?_⟩
    rcases hinj : env.inj_create with e | b
    · simpa [injection_test, htab, hinj] using h
    · cases b <;> simpa [injection_test, htab, hinj] using h

/-- Witness for C6: the well-behaved environment (candidate leaves the
table intact) instantiates both clauses. -/
theorem C6_witness :
    (injection_test (table_name_lookup sampleMeta.tables) baseEnv.inj_create = true
        ↔ baseEnv.inj_create = Except.ok true) ∧
    (∃ s, evaluate_project baseEnv = Except.ok (Report.report s 130
        (prefix_details baseEnv ++ [("✔ Database connection successfully sandboxed")] ++
         func_detail_block sampleMeta baseEnv.crud_run ++
         [if baseEnv.inj_create = Except.ok true
            then ("✔ SQL injection protection appears safe")
            else ("❌ SQL injection vulnerability detected"),
          if style_check baseEnv.pycodestyle_run
            then ("✔ Code is PEP8 clean")
            else ("❌ Code style violations found")]))) :=
  C6_injection_check baseEnv sampleMeta ("db.py") ("users")
    rfl rfl rfl rfl rfl rfl rfl rfl rfl rfl

/-- C7: the claim that a correct, injection-safe, PEP8-clean submission
scores 130/130 fails on the code.  The harness builds its own schema as
CREATE TABLE (id INTEGER PRIMARY KEY, one column per sample key), so
the spec scenario sample with keys id and name repeats the id column
and sqlite raises before the candidate is ever exercised (and a sample
without an id key raises KeyError at the read call instead), so the
functional stage always raises, its 30 points are unearnable, and the
score of every returned report — for every submission and manifest — is
at most 100, never the claimed 130. -/
theorem C7_score_cannot_reach_130 (env : Env) (s t : Nat) (d : List String)
    (h : evaluate_project env = Except.ok (Report.report s t d)) :
    s ≤ 100 := by
  rcases hml : env.meta_load with e | m
  · rw [eval_meta_error env e hml] at h
    exact absurd h (by simp)
  cases h2 : py_falsy m.crud_module with
  | true =>
    rw [eval_manifest_incomplete env m hml (by simp [h2])] at h
    exact absurd h (by simp)
  | false =>
  cases h3 : py_falsy m.crud_class with
  | true =>
    rw [eval_manifest_incomplete env m hml (by simp [h2, h3])] at h
    exact absurd h (by simp)
  | false =>
  rcases hda : m.db_adapter with _ | da
  · rw [eval_db_adapter_none env m hml h2 h3 hda] at h
    exact absurd h (by simp)
  cases hce : env.crud_exists with
  | false =>
    rw [eval_crud_missing env m da hml h2 h3 hda hce] at h
    simp only [Except.ok.injEq, Report.report.injEq] at h
    obtain ⟨hs, ht, hd⟩ := h
    split_ifs at hs <;> omega
  | true =>
  rcases hic : env.import_crud with e | u
  · rw [eval_import_fail env m da e hml h2 h3 hda hce hic] at h
    simp only [Except.ok.injEq, Report.report.injEq] at h
    obtain ⟨hs, ht, hd⟩ := h
    split_ifs at hs <;> omega
  obtain rfl : u = () := rfl
  cases hmo : methods_ok env with
  | false =>
    rw [eval_methods_missing env m da hml h2 h3 hda hce hic hmo] at h
    simp only [Except.ok.injEq, Report.report.injEq] at h
    obtain ⟨hs, ht, hd⟩ := h
    split_ifs at hs <;> omega
  | true =>
  rcases hidb : env.import_db with e | v
  · rw [eval_import_db_raise env m da e hml h2 h3 hda hce hic hmo hidb] at h
    exact absurd h (by simp)
  obtain rfl : v = () := rfl
  cases hpg : conn_fn_patchable m with
  | false =>
    obtain ⟨r, hr⟩ := conn_fn_unpatchable_elim m hpg
    rw [eval_patch_fail env m da r hml h2 h3 hda hce hic hmo hidb hr] at h
    simp only [Except.ok.injEq, Report.report.injEq] at h
    obtain ⟨hs, ht, hd⟩ := h
    split_ifs at hs <;> omega
  | true =>
    rw [eval_full_run env m da hml h2 h3 hda hce hic hmo hidb hpg] at h
    rw [func_flag_false m env.crud_run] at h
    simp only [Except.ok.injEq, Report.report.injEq] at h
    obtain ⟨hs, ht, hd⟩ := h
    simp only [Bool.false_eq_true, if_false] at hs
    split_ifs at hs <;> omega

/-- Witness for C7: even the fully well-behaved submission environment
of the spec scenario is scored 100 of 130, and the bound applies to it. -/
theorem C7_witness :
    evaluate_project baseEnv = Except.ok (Report.report 100 130
      [("✔ CRUD module found"), ("✔ DB adapter file found"),
       ("✔ CRUD class imported successfully"),
       ("✔ Method create() found"), ("✔ Method read() found"),
       ("✔ Method update() found"), ("✔ Method delete() found"),
       ("✔ Database connection successfully sandboxed"),
       ("❌ CRUD runtime error: Traceback (most recent call last): sqlite3.OperationalError: duplicate column name"),
       ("❌ CRUD functional test failed"),
       ("✔ SQL injection protection appears safe"),
       ("✔ Code is PEP8 clean")]) ∧ 100 ≤ 100 := by
  refine ⟨rfl, ?_⟩
  exact C7_score_cannot_reach_130 baseEnv 100 130
    [("✔ CRUD module found"), ("✔ DB adapter file found"),
     ("✔ CRUD class imported successfully"),
     ("✔ Method create() found"), ("✔ Method read() found"),
     ("✔ Method update() found"), ("✔ Method delete() found"),
     ("✔ Database connection successfully sandboxed"),
     ("❌ CRUD runtime error: Traceback (most recent call last): sqlite3.OperationalError: duplicate column name"),
     ("❌ CRUD functional test failed"),
     ("✔ SQL injection protection appears safe"),
     ("✔ Code is PEP8 clean")] rfl

/-- C8 counterexample: in a run whose CRUD-class import fails, three
checks are attempted (weights 10, 10, 20) but the report carries four
detail lines — the failed import contributed two entries, not the
exactly one the claim asserts. -/
theorem C8_counterexample :
    evaluate_project { baseEnv with import_crud := Except.error ("ImportError: boom") }
      = Except.ok (Report.report 20 40
          [("✔ CRUD module found"), ("✔ DB adapter file found"),
           ("❌ Could not import CRUD class: ImportError: boom"),
           ("❌ Failed to load CRUD class")]) :=
  rfl

/-- C8 amended: `Score.add` always appends exactly one outcome line per
attempted check (growing the total by the weight, and the earned points
only on a pass), but the import stage additionally appends a diagnostic
line when the import fails, so a failed import contributes exactly two
detail lines and such a report has four entries for three attempted
checks. -/
theorem C8_amended_one_line_per_check :
    (∀ (s : Score) (p : Nat) (c : Bool) (m1 m2 : String),
        (s.add p c m1 m2).details.length = s.details.length + 1 ∧
        (s.add p c m1 m2).total = s.total + p ∧
        (s.add p c m1 m2).earned = (if c then s.earned + p else s.earned)) ∧
    (∀ (env : Env) (m : Meta) (da e : String),
        env.meta_load = Except.ok m →
        py_falsy m.crud_module = false →
        py_falsy m.crud_class = false →
        m.db_adapter = some da →
        env.crud_exists = true →
        env.import_crud = Except.error e →
        ∃ s, evaluate_project env = Except.ok (Report.report s 40
          [("✔ CRUD module found"),
           if env.db_exists then ("✔ DB adapter file found")
           else ("❌ DB adapter file missing"),
           ("❌ Could not import CRUD class: " ++ e),
           ("❌ Failed to load CRUD class")])) := by
  constructor
  · intro s p c m1 m2
    exact ⟨by simp [Score.add], rfl, rfl⟩
  · intro env m da e h1 h2 h3 h4 h5 h6
    exact ⟨_, eval_import_fail env m da e h1 h2 h3 h4 h5 h6⟩

/-- Witness for C8: a concrete failed-import run has the four-line
40-point report shape. -/
theorem C8_witness :
    ∃ s, evaluate_project { baseEnv with import_crud := Except.error ("ImportError: zap") }
      = Except.ok (Report.report s 40
          [("✔ CRUD module found"),
           if ({ baseEnv with import_crud := Except.error ("ImportError: zap") } : Env).db_exists
           then ("✔ DB adapter file found") else ("❌ DB adapter file missing"),
           ("❌ Could not import CRUD class: ImportError: zap"),
           ("❌ Failed to load CRUD class")]) :=
  C8_amended_one_line_per_check.2
    { baseEnv with import_crud := Except.error ("ImportError: zap") }
    sampleMeta ("db.py") ("ImportError: zap") rfl rfl rfl rfl rfl rfl

/-- C9 counterexample: the loaded adapter module defines no attribute
at all — in particular not the default get_connection the manifest
implies — yet the sandbox check is recorded as a success and the
pipeline continues through checks 6-8 to a max_score-130 report,
contradicting the claimed failure-and-halt: `setattr` simply creates
the missing attribute. -/
theorem C9_counterexample :
    evaluate_project { baseEnv with db_mod_attrs := [] }
      = Except.ok (Report.report 100 130
          [("✔ CRUD module found"), ("✔ DB adapter file found"),
           ("✔ CRUD class imported successfully"),
           ("✔ Method create() found"), ("✔ Method read() found"),
           ("✔ Method update() found"), ("✔ Method delete() found"),
           ("✔ Database connection successfully sandboxed"),
           ("❌ CRUD runtime error: Traceback (most recent call last): sqlite3.OperationalError: duplicate column name"),
           ("❌ CRUD functional test failed"),
           ("✔ SQL injection protection appears safe"),
           ("✔ Code is PEP8 clean")]) :=
  rfl

/-- C9 amended: the sandbox substitution never consults the adapter
module's attribute set — the result of the run is unchanged under any
`db_mod_attrs` — and the sandbox check fails (halting the pipeline at
max_score 70 with a diagnostic plus the failed outcome) exactly when
`setattr` itself raises because the configured db_connect_fn manifest
value is not a string; whenever that value is a string (or absent, the
default name being a string), the check passes and the run reaches
max_score 130. -/
theorem C9_amended_sandbox_gate (env : Env) (m : Meta) (da : String)
    (h1 : env.meta_load = Except.ok m)
    (h2 : py_falsy m.crud_module = false)
    (h3 : py_falsy m.crud_class = false)
    (h4 : m.db_adapter = some da)
    (h5 : env.crud_exists = true)
    (h6 : env.import_crud = Except.ok ())
    (h7 : methods_ok env = true)
    (h8 : env.import_db = Except.ok ()) :
    (∀ attrs, evaluate_project { env with db_mod_attrs := attrs }
        = evaluate_project env) ∧
    (conn_fn_patchable m = true →
        ∃ s d, evaluate_project env = Except.ok (Report.report s 130 d)) ∧
    (∀ r, m.db_connect_fn = some (PyVal.nonstr r) →
        evaluate_project env = Except.ok (Report.report
          (50 + (if env.db_exists then 10 else 0)) 70
          (prefix_details env ++
           [("❌ Cannot patch DB connection: TypeError: attribute name must be string, not " ++ r),
            ("❌ Unable to sandbox database calls")]))) := by
  refine ⟨fun attrs => rfl, ?_, ?_⟩
  · intro hpg
    exact ⟨_, _, eval_full_run env m da h1 h2 h3 h4 h5 h6 h7 h8 hpg⟩
  · intro r hr
    exact eval_patch_fail env m da r h1 h2 h3 h4 h5 h6 h7 h8 hr

/-- Witness for C9: a manifest configuring a non-string db_connect_fn
value halts the run at the failed sandbox check. -/
theorem C9_witness :
    evaluate_project { baseEnv with
        meta_load := Except.ok { sampleMeta with db_connect_fn := some (PyVal.nonstr ("int")) } }
      = Except.ok (Report.report 60 70
          [("✔ CRUD module found"), ("✔ DB adapter file found"),
           ("✔ CRUD class imported successfully"),
           ("✔ Method create() found"), ("✔ Method read() found"),
           ("✔ Method update() found"), ("✔ Method delete() found"),
           ("❌ Cannot patch DB connection: TypeError: attribute name must be string, not int"),
           ("❌ Unable to sandbox database calls")]) := by
  have h := (C9_amended_sandbox_gate
      { baseEnv with
        meta_load := Except.ok { sampleMeta with db_connect_fn := some (PyVal.nonstr ("int")) } }
      { sampleMeta with db_connect_fn := some (PyVal.nonstr ("int")) }
      ("db.py") rfl rfl rfl rfl rfl rfl rfl rfl).2.2 ("int") rfl
  simpa [prefix_details] using h

/-- C10: a run that passes the sandbox stage but whose manifest has no
usable tables mapping (the key absent, or mapping no tables) still ends
in a complete max_score-130 report: the exceptions raised from the
missing table name are caught inside the functional and injection
stages, both checks are recorded as failures, and the style check still
runs as the final entry. -/
theorem C10_missing_tables_full_report (env : Env) (m : Meta) (da : String)
    (h1 : env.meta_load = Except.ok m)
    (h2 : py_falsy m.crud_module = false)
    (h3 : py_falsy m.crud_class = false)
    (h4 : m.db_adapter = some da)
    (h5 : env.crud_exists = true)
    (h6 : env.import_crud = Except.ok ())
    (h7 : methods_ok env = true)
    (h8 : env.import_db = Except.ok ())
    (h9 : conn_fn_patchable m = true)
    (htab : m.tables = none ∨ m.tables = some []) :
    ∃ s e, evaluate_project env = Except.ok (Report.report s 130
      (prefix_details env ++
       [("✔ Database connection successfully sandboxed"),
        ("❌ CRUD runtime error: " ++ traceback_format_exc e),
        ("❌ CRUD functional test failed"),
        ("❌ SQL injection vulnerability detected"),
        if style_check env.pycodestyle_run
          then ("✔ Code is PEP8 clean")
          else ("❌ Code style violations found")])) := by
  have h := eval_full_run env m da h1 h2 h3 h4 h5 h6 h7 h8 h9
  rcases htab with ht | ht
  · refine ⟨(60 + (if env.db_exists then 10 else 0)
       + (if func_flag m env.crud_run then 30 else 0)
       + (if injection_test (table_name_lookup m.tables) env.inj_create then 20 else 0)
       + (if style_check env.pycodestyle_run then 10 else 0)),
      ("AttributeError: NoneType object has no attribute values"), ?_⟩
    simpa [func_detail_block, functional_test, table_name_lookup, injection_test, ht] using h
  · refine ⟨(60 + (if env.db_exists then 10 else 0)
       + (if func_flag m env.crud_run then 30 else 0)
       + (if injection_test (table_name_lookup m.tables) env.inj_create then 20 else 0)
       + (if style_check env.pycodestyle_run then 10 else 0)),
      ("IndexError: list index out of range"), ?_⟩
    simpa [func_detail_block, functional_test, table_name_lookup, injection_test, ht] using h

/-- Witness for C10: the well-behaved environment with the tables key
removed from its manifest still yields a complete 130-point report with
failed functional and injection checks and a final style entry. -/
theorem C10_witness :
    ∃ s e, evaluate_project { baseEnv with
        meta_load := Except.ok { sampleMeta with tables := none } }
      = Except.ok (Report.report s 130
        (prefix_details { baseEnv with
            meta_load := Except.ok { sampleMeta with tables := none } } ++
         [("✔ Database connection successfully sandboxed"),
          ("❌ CRUD runtime error: " ++ traceback_format_exc e),
          ("❌ CRUD functional test failed"),
          ("❌ SQL injection vulnerability detected"),
          if style_check ({ baseEnv with
              meta_load := Except.ok { sampleMeta with tables := none } } : Env).pycodestyle_run
            then ("✔ Code is PEP8 clean")
            else ("❌ Code style violations found")])) :=
  C10_missing_tables_full_report
    { baseEnv with meta_load := Except.ok { sampleMeta with tables := none } }
    { sampleMeta with tables := none } ("db.py")
    rfl rfl rfl rfl rfl rfl rfl rfl rfl (Or.inl rfl)
